import Mathlib

/-!
Shallow embedding of the RV32I simulator / disassembler
(`hex.cpp`, `rv32i_decode.cpp`, `memory.cpp`, `registerfile.cpp`,
`rv32i_hart.cpp`, `cpu_single_hart.cpp`) and proofs about it.

Conventions of the embedding:
* C++ `uint32_t` values are `Nat` kept below `2 ^ 32`; wrap-around points
  in the source (`+`, casts) are modelled with an explicit `% 4294967296`.
* C++ `int32_t` values are `Int`; the bit pattern of an `int32_t` is
  recovered with `word32`, and a 32-bit pattern is reinterpreted as a
  signed value with `toInt32` (two's complement).
* `std::string` is `String`; stream output is returned explicitly
  (`Option String` for the per-instruction trace written to `*pos`,
  `List String` for the lines a `tick` prints).
-/

set_option maxRecDepth 4096

namespace RV32

/-- Two's-complement reinterpretation of a 32-bit pattern as `int32_t`. -/
def toInt32 (n : Nat) : Int :=
  if n % 4294967296 < 2147483648 then ((n % 4294967296 : Nat) : Int)
  else ((n % 4294967296 : Nat) : Int) - 4294967296

/-- Bit pattern (as `uint32_t`) of a signed value, i.e. the value mod `2^32`. -/
def word32 (i : Int) : Nat := (i % 4294967296).toNat

/-- `uint32_t` addition of an unsigned base and a signed displacement
(the `addr + imm` / `pc + imm` computations of the source). -/
def addw (a : Nat) (i : Int) : Nat := word32 ((a : Int) + i)

/-! ### hex.cpp : canonical hex renderings -/

/-- One lowercase hex digit (`0`-`9`, `a`-`f`). -/
def hexDigitChar (d : Nat) : Char :=
  if d < 10 then Char.ofNat (48 + d) else Char.ofNat (87 + d)

/-- Numeric value of a lowercase hex digit character. -/
def hexCharVal (c : Char) : Nat :=
  if 97 ≤ c.toNat then c.toNat - 87 else c.toNat - 48

/-- Minimal-width hex digit list of `n` (most significant first), with
explicit fuel; `fuel > n` always suffices. -/
def hexDigitsAux : Nat → Nat → List Char
  | 0, _ => []
  | fuel + 1, n =>
    if n < 16 then [hexDigitChar n]
    else hexDigitsAux fuel (n / 16) ++ [hexDigitChar (n % 16)]

/-- What `std::ostream << std::hex << n` prints for an unsigned `n`:
minimal-width lowercase hex, `"0"` for zero. -/
def natToHexMin (n : Nat) : String := String.mk (hexDigitsAux (n + 1) n)

/-- Decimal digit list of `n`, with explicit fuel. -/
def decDigitsAux : Nat → Nat → List Char
  | 0, _ => []
  | fuel + 1, n =>
    if n < 10 then [hexDigitChar n]
    else decDigitsAux fuel (n / 10) ++ [hexDigitChar (n % 10)]

/-- What `std::ostream << n` prints for an unsigned `n`. -/
def natToDec (n : Nat) : String := String.mk (decDigitsAux (n + 1) n)

/-- What `std::ostream << i` prints for a signed `i` (sign then digits). -/
def intToDec (i : Int) : String :=
  if i < 0 then "-" ++ natToDec (-i).toNat else natToDec i.toNat

/-- Pad a string on the left with `'0'` up to width `w`
(`std::setfill('0') << std::setw(w)`). -/
def padLeft0 (s : String) (w : Nat) : String :=
  String.mk (List.replicate (w - s.length) '0') ++ s

/-- Pad a string on the right with spaces up to width `w`
(`std::left << std::setw(w)`). -/
def padRight (s : String) (w : Nat) : String :=
  s ++ String.mk (List.replicate (w - s.length) ' ')

/-- `hex::to_hex8`: exactly 2 hex digits of an 8-bit value, no 0x. -/
def to_hex8 (i : Nat) : String := padLeft0 (natToHexMin (i % 256)) 2

/-- `hex::to_hex32`: exactly 8 hex digits of a 32-bit value, no 0x. -/
def to_hex32 (i : Nat) : String := padLeft0 (natToHexMin (i % 4294967296)) 8

/-- `hex::to_hex0x32`: `"0x"` followed by 8 hex digits. -/
def to_hex0x32 (i : Nat) : String := "0x" ++ to_hex32 i

/-- `hex::to_hex0x20`: `"0x"` followed by exactly 5 hex digits of the
low 20 bits. -/
def to_hex0x20 (i : Nat) : String :=
  "0x" ++ padLeft0 (natToHexMin (i &&& 0x000fffff)) 5

/-- `hex::to_hex0x12`: `"0x"` followed by exactly 3 hex digits of the
low 12 bits. -/
def to_hex0x12 (i : Nat) : String :=
  "0x" ++ padLeft0 (natToHexMin (i &&& 0x00000fff)) 3

/-! ### rv32i_decode.cpp : field extraction, immediates, rendering -/

def opcode_lui : Nat := 0b0110111
def opcode_auipc : Nat := 0b0010111
def opcode_jal : Nat := 0b1101111
def opcode_jalr : Nat := 0b1100111
def opcode_btype : Nat := 0b1100011
def opcode_load : Nat := 0b0000011
def opcode_store : Nat := 0b0100011
def opcode_alu_imm : Nat := 0b0010011
def opcode_alu_reg : Nat := 0b0110011
def opcode_system : Nat := 0b1110011

def mnemonic_width : Nat := 8

/-- `rv32i_decode::get_opcode`: bits [6:0]. -/
def get_opcode (insn : Nat) : Nat := insn &&& 0x7f

/-- `rv32i_decode::get_rd`: bits [11:7]. -/
def get_rd (insn : Nat) : Nat := (insn >>> 7) &&& 0x1f

/-- `rv32i_decode::get_rs1`: bits [19:15]. -/
def get_rs1 (insn : Nat) : Nat := (insn >>> 15) &&& 0x1f

/-- `rv32i_decode::get_rs2`: bits [24:20]. -/
def get_rs2 (insn : Nat) : Nat := (insn >>> 20) &&& 0x1f

/-- `rv32i_decode::get_funct3`: bits [14:12]. -/
def get_funct3 (insn : Nat) : Nat := (insn >>> 12) &&& 0x7

/-- `rv32i_decode::get_funct7`: bits [31:25]. -/
def get_funct7 (insn : Nat) : Nat := (insn >>> 25) &&& 0x7f

/-- `rv32i_decode::get_imm_i`: bits [31:20], sign-extended from bit 11. -/
def get_imm_i (insn : Nat) : Int :=
  let imm := (insn >>> 20) &&& 0xfff
  if imm &&& 0x800 ≠ 0 then toInt32 (imm ||| 0xfffff000) else (imm : Int)

/-- `rv32i_decode::get_imm_u`: `static_cast<int32_t>(insn & 0xfffff000)`. -/
def get_imm_u (insn : Nat) : Int := toInt32 (insn &&& 0xfffff000)

/-- `rv32i_decode::get_imm_b`: scattered B-type offset, sign-extended. -/
def get_imm_b (insn : Nat) : Int :=
  let bit12 := (insn >>> 31) &&& 0x1
  let bits10_5 := (insn >>> 25) &&& 0x3f
  let bits4_1 := (insn >>> 8) &&& 0x0f
  let bit11 := (insn >>> 7) &&& 0x1
  let imm := (bit12 <<< 12) ||| (bit11 <<< 11) ||| (bits10_5 <<< 5) ||| (bits4_1 <<< 1)
  if bit12 ≠ 0 then toInt32 (imm ||| 0xffffe000) else (imm : Int)

/-- `rv32i_decode::get_imm_s`: scattered S-type offset, sign-extended. -/
def get_imm_s (insn : Nat) : Int :=
  let imm_s := (insn &&& 0xfe000000) >>> 20
  let imm_s2 := imm_s ||| ((insn &&& 0x00000f80) >>> 7)
  if insn &&& 0x80000000 ≠ 0 then toInt32 (imm_s2 ||| 0xfffff000) else (imm_s2 : Int)

/-- `rv32i_decode::get_imm_j`: scattered J-type offset, sign-extended. -/
def get_imm_j (insn : Nat) : Int :=
  let bit20 := (insn >>> 31) &&& 0x1
  let bits10_1 := (insn >>> 21) &&& 0x3ff
  let bit11 := (insn >>> 20) &&& 0x1
  let bits19_12 := (insn >>> 12) &&& 0xff
  let imm := (bit20 <<< 20) ||| (bits19_12 <<< 12) ||| (bit11 <<< 11) ||| (bits10_1 <<< 1)
  if bit20 ≠ 0 then toInt32 (imm ||| 0xffe00000) else (imm : Int)

/-- `rv32i_decode::render_illegal_insn`. -/
def render_illegal_insn : String := "ERROR: UNIMPLEMENTED INSTRUCTION"

/-- `rv32i_decode::render_mnemonic`: pad to `mnemonic_width` except for
`ecall`/`ebreak`, which are returned bare. -/
def render_mnemonic (mnemonic : String) : String :=
  if mnemonic = "ecall" ∨ mnemonic = "ebreak" then mnemonic
  else padRight mnemonic mnemonic_width

/-- `rv32i_decode::render_reg`: `"x"` plus the decimal register number. -/
def render_reg (r : Nat) : String := "x" ++ natToDec r

/-- `rv32i_decode::render_base_disp`: `imm(rs1)`. -/
def render_base_disp (rs1 : Nat) (imm : Int) : String :=
  intToDec imm ++ "(" ++ render_reg rs1 ++ ")"

/-- The 20-bit field printed by `render_lui`/`render_auipc`:
`(uint32_t(imm_u) >> 12) & 0xFFFFF`. -/
def uimm20 (insn : Nat) : Nat := (word32 (get_imm_u insn) >>> 12) &&& 0xFFFFF

/-- `rv32i_decode::render_lui`: note the immediate is streamed with bare
`std::hex` (minimal width), not with `to_hex0x20`. -/
def render_lui (insn : Nat) : String :=
  render_mnemonic "lui" ++ render_reg (get_rd insn) ++ ",0x" ++ natToHexMin (uimm20 insn)

/-- `rv32i_decode::render_auipc`: same shape as `render_lui`. -/
def render_auipc (insn : Nat) : String :=
  render_mnemonic "auipc" ++ render_reg (get_rd insn) ++ ",0x" ++ natToHexMin (uimm20 insn)

/-- `rv32i_decode::render_jal`. -/
def render_jal (addr insn : Nat) : String :=
  render_mnemonic "jal" ++ render_reg (get_rd insn) ++ "," ++
    to_hex0x32 (addw addr (get_imm_j insn))

/-- `rv32i_decode::render_jalr`. -/
def render_jalr (insn : Nat) : String :=
  render_mnemonic "jalr" ++ render_reg (get_rd insn) ++ "," ++
    render_base_disp (get_rs1 insn) (get_imm_i insn)

/-- `rv32i_decode::render_btype`. -/
def render_btype (addr insn : Nat) (mnemonic : String) : String :=
  render_mnemonic mnemonic ++ render_reg (get_rs1 insn) ++ "," ++
    render_reg (get_rs2 insn) ++ "," ++ to_hex0x32 (addw addr (get_imm_b insn))

/-- `rv32i_decode::render_itype_load`. -/
def render_itype_load (insn : Nat) (mnemonic : String) : String :=
  render_mnemonic mnemonic ++ render_reg (get_rd insn) ++ "," ++
    render_base_disp (get_rs1 insn) (get_imm_i insn)

/-- `rv32i_decode::render_stype`. -/
def render_stype (insn : Nat) (mnemonic : String) : String :=
  render_mnemonic mnemonic ++ render_reg (get_rs2 insn) ++ "," ++
    render_base_disp (get_rs1 insn) (get_imm_s insn)

/-- `rv32i_decode::render_itype_alu`. -/
def render_itype_alu (insn : Nat) (mnemonic : String) (imm : Int) : String :=
  render_mnemonic mnemonic ++ render_reg (get_rd insn) ++ "," ++
    render_reg (get_rs1 insn) ++ "," ++ intToDec imm

/-- `rv32i_decode::render_rtype`. -/
def render_rtype (insn : Nat) (mnemonic : String) : String :=
  render_mnemonic mnemonic ++ render_reg (get_rd insn) ++ "," ++
    render_reg (get_rs1 insn) ++ "," ++ render_reg (get_rs2 insn)

/-- `rv32i_decode::render_csrrx`. -/
def render_csrrx (insn : Nat) (mnemonic : String) : String :=
  render_mnemonic mnemonic ++ render_reg (get_rd insn) ++ "," ++
    to_hex0x12 (insn >>> 20) ++ "," ++ render_reg (get_rs1 insn)

/-- `rv32i_decode::render_csrrxi`. -/
def render_csrrxi (insn : Nat) (mnemonic : String) : String :=
  render_mnemonic mnemonic ++ render_reg (get_rd insn) ++ "," ++
    to_hex0x12 (insn >>> 20) ++ "," ++ natToDec (get_rs1 insn)

/-- The shift amount shown for `slli`/`srli`/`srai`:
`get_imm_i(insn) & 0x1f` (a non-negative `int32_t`). -/
def shamt_i (insn : Nat) : Nat := word32 (get_imm_i insn) &&& 0x1f

/-- `rv32i_decode::decode`: top-level dispatch, the C++ `switch`
cascades rendered as `if`-chains. -/
def decode (addr insn : Nat) : String :=
  let opcode := get_opcode insn
  if opcode = opcode_lui then render_lui insn
  else if opcode = opcode_auipc then render_auipc insn
  else if opcode = opcode_jal then render_jal addr insn
  else if opcode = opcode_jalr then render_jalr insn
  else if opcode = opcode_btype then
    let f3 := get_funct3 insn
    if f3 = 0b000 then render_btype addr insn "beq"
    else if f3 = 0b001 then render_btype addr insn "bne"
    else if f3 = 0b100 then render_btype addr insn "blt"
    else if f3 = 0b101 then render_btype addr insn "bge"
    else if f3 = 0b110 then render_btype addr insn "bltu"
    else if f3 = 0b111 then render_btype addr insn "bgeu"
    else render_illegal_insn
  else if opcode = opcode_load then
    let f3 := get_funct3 insn
    if f3 = 0b000 then render_itype_load insn "lb"
    else if f3 = 0b001 then render_itype_load insn "lh"
    else if f3 = 0b010 then render_itype_load insn "lw"
    else if f3 = 0b100 then render_itype_load insn "lbu"
    else if f3 = 0b101 then render_itype_load insn "lhu"
    else render_illegal_insn
  else if opcode = opcode_store then
    let f3 := get_funct3 insn
    if f3 = 0b000 then render_stype insn "sb"
    else if f3 = 0b001 then render_stype insn "sh"
    else if f3 = 0b010 then render_stype insn "sw"
    else render_illegal_insn
  else if opcode = opcode_alu_imm then
    let f3 := get_funct3 insn
    if f3 = 0b000 then render_itype_alu insn "addi" (get_imm_i insn)
    else if f3 = 0b010 then render_itype_alu insn "slti" (get_imm_i insn)
    else if f3 = 0b011 then render_itype_alu insn "sltiu" (get_imm_i insn)
    else if f3 = 0b100 then render_itype_alu insn "xori" (get_imm_i insn)
    else if f3 = 0b110 then render_itype_alu insn "ori" (get_imm_i insn)
    else if f3 = 0b111 then render_itype_alu insn "andi" (get_imm_i insn)
    else if f3 = 0b001 then
      if get_funct7 insn = 0b0000000 then render_itype_alu insn "slli" (shamt_i insn)
      else render_illegal_insn
    else if f3 = 0b101 then
      if get_funct7 insn = 0b0000000 then render_itype_alu insn "srli" (shamt_i insn)
      else if get_funct7 insn = 0b0100000 then render_itype_alu insn "srai" (shamt_i insn)
      else render_illegal_insn
    else render_illegal_insn
  else if opcode = opcode_alu_reg then
    let f3 := get_funct3 insn
    if f3 = 0b000 then
      if get_funct7 insn = 0b0000000 then render_rtype insn "add"
      else if get_funct7 insn = 0b0100000 then render_rtype insn "sub"
      else render_illegal_insn
    else if f3 = 0b001 then render_rtype insn "sll"
    else if f3 = 0b010 then render_rtype insn "slt"
    else if f3 = 0b011 then render_rtype insn "sltu"
    else if f3 = 0b100 then render_rtype insn "xor"
    else if f3 = 0b101 then
      if get_funct7 insn = 0b0000000 then render_rtype insn "srl"
      else if get_funct7 insn = 0b0100000 then render_rtype insn "sra"
      else render_illegal_insn
    else if f3 = 0b110 then render_rtype insn "or"
    else if f3 = 0b111 then render_rtype insn "and"
    else render_illegal_insn
  else if opcode = opcode_system then
    let f3 := get_funct3 insn
    if f3 = 0b000 then
      if insn = 0x00000073 then render_mnemonic "ecall"
      else if insn = 0x00100073 then render_mnemonic "ebreak"
      else render_illegal_insn
    else if f3 = 0b001 then render_csrrx insn "csrrw"
    else if f3 = 0b010 then render_csrrx insn "csrrs"
    else if f3 = 0b011 then render_csrrx insn "csrrc"
    else if f3 = 0b101 then render_csrrxi insn "csrrwi"
    else if f3 = 0b110 then render_csrrxi insn "csrrsi"
    else if f3 = 0b111 then render_csrrxi insn "csrrci"
    else render_illegal_insn
  else render_illegal_insn

/-! ### memory.cpp : bounded little-endian byte memory -/

/-- The simulated memory: the `std::vector<uint8_t> mem` of the source.
Bytes are `Nat` values below 256 (writes truncate to the `uint8_t`
parameter type). -/
structure memory where
  mem : List Nat
deriving DecidableEq

/-- `memory::memory(uint32_t s)`: size rounded up with
`s = (s + 15) & 0xfffffff0` in `uint32_t` arithmetic, all bytes `0xa5`. -/
def memory.init (s : Nat) : memory :=
  ⟨List.replicate ((s % 4294967296 + 15) % 4294967296 &&& 0xfffffff0) 0xa5⟩

/-- `memory::get_size` (`uint32_t` cast of `mem.size()`). -/
def memory.get_size (m : memory) : Nat := m.mem.length % 4294967296

/-- `memory::check_illegal` (its boolean result; the warning goes to
`std::cerr` and carries no state). -/
def memory.check_illegal (m : memory) (addr : Nat) : Bool := addr ≥ m.mem.length

/-- `memory::get8`: the byte, or 0 if the address is out of range. -/
def memory.get8 (m : memory) (addr : Nat) : Nat :=
  if addr < m.mem.length then m.mem.getD addr 0 else 0

/-- `memory::get16`: `get8(addr) + (get8(addr+1) << 8)`. -/
def memory.get16 (m : memory) (addr : Nat) : Nat :=
  m.get8 addr + (m.get8 (addr + 1) <<< 8)

/-- `memory::get32`: `get16(addr) | (get16(addr+2) << 16)`. -/
def memory.get32 (m : memory) (addr : Nat) : Nat :=
  m.get16 addr ||| (m.get16 (addr + 2) <<< 16)

/-- `memory::get8_sx`: sign-extend bit 7 (`insb | 0xffffff00` when the
msb is set, reinterpreted as `int32_t`). -/
def memory.get8_sx (m : memory) (addr : Nat) : Int :=
  let insb := m.get8 addr
  if insb >>> 7 = 1 then toInt32 (insb ||| 0xffffff00) else (insb : Int)

/-- `memory::get16_sx`: sign-extend bit 15. -/
def memory.get16_sx (m : memory) (addr : Nat) : Int :=
  let insb := m.get16 addr
  if insb >>> 15 = 1 then toInt32 (insb ||| 0xffff0000) else (insb : Int)

/-- `memory::get32_sx`: reinterpretation only. -/
def memory.get32_sx (m : memory) (addr : Nat) : Int := toInt32 (m.get32 addr)

/-- `memory::set8`: in-range write, out-of-range writes dropped.
`% 256` encodes the `uint8_t` parameter type. -/
def memory.set8 (m : memory) (addr val : Nat) : memory :=
  if addr < m.mem.length then ⟨m.mem.set addr (val % 256)⟩ else m

/-- `memory::set16`: little-endian, low byte first.
`% 65536` encodes the `uint16_t` parameter type. -/
def memory.set16 (m : memory) (addr v : Nat) : memory :=
  let val := v % 65536
  (m.set8 addr (val &&& 0xff)).set8 (addr + 1) ((val >>> 8) &&& 0xff)

/-- `memory::set32`: little-endian, as two 16-bit halves. -/
def memory.set32 (m : memory) (addr v : Nat) : memory :=
  let val := v % 4294967296
  (m.set16 addr (val &&& 0xffff)).set16 (addr + 2) ((val >>> 16) &&& 0xffff)

/-! ### registerfile.cpp : 32 registers, x0 hard-wired to 0 -/

/-- The register file; entries are 32-bit patterns (the source stores
`int32_t`, whose bit pattern this is). -/
structure registerfile where
  regs : List Nat
deriving DecidableEq

/-- The register contents established by `registerfile::reset`:
x0 = 0, x1..x31 = `0xf0f0f0f0`. -/
def registerfile.afterReset : registerfile :=
  ⟨0 :: List.replicate 31 0xf0f0f0f0⟩

/-- `registerfile::registerfile()` constructs and immediately resets. -/
def registerfile.init : registerfile := registerfile.afterReset

/-- `registerfile::set`: writes to x0 and out-of-range indices dropped.
`% 4294967296` encodes the `int32_t` parameter's 32-bit pattern. -/
def registerfile.set (rf : registerfile) (r val : Nat) : registerfile :=
  if r = 0 ∨ r ≥ 32 then rf else ⟨rf.regs.set r (val % 4294967296)⟩

/-- `registerfile::get`: x0 and out-of-range indices read as 0. -/
def registerfile.get (rf : registerfile) (r : Nat) : Nat :=
  if r = 0 ∨ r ≥ 32 then 0 else rf.regs.getD r 0

/-! ### rv32i_hart.h / rv32i_hart.cpp : hart state and execution -/

/-- The state of `rv32i_hart` (plus the referenced `memory`, which the
hart owns in this embedding). -/
structure Hart where
  regs : registerfile
  mem : memory
  halt : Bool
  halt_reason : String
  show_instructions : Bool
  show_registers : Bool
  insn_counter : Nat
  pc : Nat
  mhartid : Nat
  csr : List Nat
deriving DecidableEq

/-- A freshly constructed `rv32i_hart` bound to memory `m`
(member initializers of `rv32i_hart.h`; `registerfile`'s constructor
resets it; the 4096 CSRs are zero-initialized). -/
def Hart.mk0 (m : memory) : Hart :=
  { regs := registerfile.init
    mem := m
    halt := false
    halt_reason := "none"
    show_instructions := false
    show_registers := false
    insn_counter := 0
    pc := 0
    mhartid := 0
    csr := List.replicate 4096 0 }

/-- `rv32i_hart::reset`: clears pc, counter, halt state, mhartid,
registers and CSRs; memory and the trace flags are untouched. -/
def Hart.reset (s : Hart) : Hart :=
  { s with
    pc := 0
    insn_counter := 0
    halt := false
    halt_reason := "none"
    mhartid := 0
    regs := registerfile.afterReset
    csr := List.replicate 4096 0 }

def instruction_width : Nat := 35

/-- The `setw(instruction_width) << left << s` padding applied to every
rendered instruction in a trace line. -/
def padTrace (s : String) : String := padRight s instruction_width

/-- `rv32i_hart::exec_illegal_insn`. -/
def exec_illegal_insn (insn : Nat) (pos : Bool) (s : Hart) : Hart × Option String :=
  let _ := insn
  ({ s with halt := true, halt_reason := "Illegal instruction" },
   if pos then some render_illegal_insn else none)

/-- `rv32i_hart::exec_lui`: rd = imm_u; pc += 4. -/
def exec_lui (insn : Nat) (pos : Bool) (s : Hart) : Hart × Option String :=
  let rd := get_rd insn
  let imm := get_imm_u insn
  let val := imm
  ({ s with regs := s.regs.set rd (word32 val), pc := (s.pc + 4) % 4294967296 },
   if pos then
     some (padTrace (render_lui insn) ++ "// " ++ render_reg rd ++ " = " ++
       to_hex0x32 (word32 val))
   else none)

/-- `rv32i_hart::exec_auipc`: rd = pc + imm_u; pc += 4. -/
def exec_auipc (insn : Nat) (pos : Bool) (s : Hart) : Hart × Option String :=
  let rd := get_rd insn
  let imm := get_imm_u insn
  let old_pc := s.pc
  let val := addw old_pc imm
  ({ s with regs := s.regs.set rd val, pc := (s.pc + 4) % 4294967296 },
   if pos then
     some (padTrace (render_auipc insn) ++ "// " ++ render_reg rd ++ " = " ++
       to_hex0x32 old_pc ++ " + " ++ to_hex0x32 (word32 imm) ++ " = " ++ to_hex0x32 val)
   else none)

/-- `rv32i_hart::exec_jal`: rd = pc + 4; pc = pc + imm_j. -/
def exec_jal (insn : Nat) (pos : Bool) (s : Hart) : Hart × Option String :=
  let rd := get_rd insn
  let imm := get_imm_j insn
  let pc_before := s.pc
  let target := addw pc_before imm
  let retaddr := (pc_before + 4) % 4294967296
  ({ s with regs := s.regs.set rd retaddr, pc := target },
   if pos then
     some (padTrace (render_jal pc_before insn) ++ "// " ++ render_reg rd ++ " = " ++
       to_hex0x32 retaddr ++ ",  pc = " ++ to_hex0x32 target)
   else none)

/-- `rv32i_hart::exec_jalr`: t = pc + 4; pc = (rs1 + imm_i) & ~1; rd = t. -/
def exec_jalr (insn : Nat) (pos : Bool) (s : Hart) : Hart × Option String :=
  let rd := get_rd insn
  let rs1 := get_rs1 insn
  let imm := get_imm_i insn
  let pc_before := s.pc
  let rs1_val := s.regs.get rs1
  let target := addw rs1_val imm &&& 0xfffffffe
  let retaddr := (pc_before + 4) % 4294967296
  ({ s with regs := s.regs.set rd retaddr, pc := target },
   if pos then
     some (padTrace (render_jalr insn) ++ "// " ++ render_reg rd ++ " = " ++
       to_hex0x32 retaddr ++ ",  pc = " ++ to_hex0x32 target)
   else none)

/-- Common tail of `rv32i_hart::exec_alu_imm` and `exec_alu_reg`
(the trace write, `regs.set(rd, result)` and `pc += 4`). -/
def aluFinish (pos : Bool) (s : Hart) (rendered : String) (rd result : Nat) :
    Hart × Option String :=
  ({ s with regs := s.regs.set rd result, pc := (s.pc + 4) % 4294967296 },
   if pos then
     some (padTrace rendered ++ "// " ++ render_reg rd ++ " = " ++ to_hex0x32 result)
   else none)

/-- `rv32i_hart::exec_alu_imm`: addi, slti, sltiu, xori, ori, andi,
slli, srli, srai. -/
def exec_alu_imm (insn : Nat) (pos : Bool) (s : Hart) : Hart × Option String :=
  let rd := get_rd insn
  let rs1 := get_rs1 insn
  let f3 := get_funct3 insn
  let f7 := get_funct7 insn
  let imm := get_imm_i insn
  let w1 := s.regs.get rs1
  let rs1_val := toInt32 w1
  if f3 = 0b000 then
    aluFinish pos s (render_itype_alu insn "addi" imm) rd (word32 (rs1_val + imm))
  else if f3 = 0b010 then
    aluFinish pos s (render_itype_alu insn "slti" imm) rd (if rs1_val < imm then 1 else 0)
  else if f3 = 0b011 then
    aluFinish pos s (render_itype_alu insn "sltiu" imm) rd (if w1 < word32 imm then 1 else 0)
  else if f3 = 0b100 then
    aluFinish pos s (render_itype_alu insn "xori" imm) rd (w1 ^^^ word32 imm)
  else if f3 = 0b110 then
    aluFinish pos s (render_itype_alu insn "ori" imm) rd (w1 ||| word32 imm)
  else if f3 = 0b111 then
    aluFinish pos s (render_itype_alu insn "andi" imm) rd (w1 &&& word32 imm)
  else if f3 = 0b001 then
    if f7 ≠ 0b0000000 then exec_illegal_insn insn pos s
    else
      aluFinish pos s (render_itype_alu insn "slli" (shamt_i insn)) rd
        ((w1 <<< shamt_i insn) % 4294967296)
  else if f3 = 0b101 then
    if f7 = 0b0000000 then
      aluFinish pos s (render_itype_alu insn "srli" (shamt_i insn)) rd (w1 >>> shamt_i insn)
    else if f7 = 0b0100000 then
      aluFinish pos s (render_itype_alu insn "srai" (shamt_i insn)) rd
        (word32 (rs1_val >>> shamt_i insn))
    else exec_illegal_insn insn pos s
  else exec_illegal_insn insn pos s

/-- `rv32i_hart::exec_alu_reg`: add, sub, sll, slt, sltu, xor, srl,
sra, or, and; any funct7 not explicitly allowed is illegal. -/
def exec_alu_reg (insn : Nat) (pos : Bool) (s : Hart) : Hart × Option String :=
  let rd := get_rd insn
  let rs1 := get_rs1 insn
  let rs2 := get_rs2 insn
  let f3 := get_funct3 insn
  let f7 := get_funct7 insn
  let w1 := s.regs.get rs1
  let w2 := s.regs.get rs2
  let rs1_val := toInt32 w1
  let rs2_val := toInt32 w2
  if f3 = 0b000 then
    if f7 = 0b0000000 then
      aluFinish pos s (render_rtype insn "add") rd (word32 (rs1_val + rs2_val))
    else if f7 = 0b0100000 then
      aluFinish pos s (render_rtype insn "sub") rd (word32 (rs1_val - rs2_val))
    else exec_illegal_insn insn pos s
  else if f3 = 0b001 then
    if f7 ≠ 0b0000000 then exec_illegal_insn insn pos s
    else aluFinish pos s (render_rtype insn "sll") rd ((w1 <<< (w2 &&& 0x1f)) % 4294967296)
  else if f3 = 0b010 then
    if f7 ≠ 0b0000000 then exec_illegal_insn insn pos s
    else aluFinish pos s (render_rtype insn "slt") rd (if rs1_val < rs2_val then 1 else 0)
  else if f3 = 0b011 then
    if f7 ≠ 0b0000000 then exec_illegal_insn insn pos s
    else aluFinish pos s (render_rtype insn "sltu") rd (if w1 < w2 then 1 else 0)
  else if f3 = 0b100 then
    if f7 ≠ 0b0000000 then exec_illegal_insn insn pos s
    else aluFinish pos s (render_rtype insn "xor") rd (w1 ^^^ w2)
  else if f3 = 0b101 then
    if f7 = 0b0000000 then
      aluFinish pos s (render_rtype insn "srl") rd (w1 >>> (w2 &&& 0x1f))
    else if f7 = 0b0100000 then
      aluFinish pos s (render_rtype insn "sra") rd (word32 (rs1_val >>> (w2 &&& 0x1f)))
    else exec_illegal_insn insn pos s
  else if f3 = 0b110 then
    if f7 ≠ 0b0000000 then exec_illegal_insn insn pos s
    else aluFinish pos s (render_rtype insn "or") rd (w1 ||| w2)
  else if f3 = 0b111 then
    if f7 ≠ 0b0000000 then exec_illegal_insn insn pos s
    else aluFinish pos s (render_rtype insn "and") rd (w1 &&& w2)
  else exec_illegal_insn insn pos s

/-- `rv32i_hart::exec_load`: lb, lh, lw, lbu, lhu. -/
def exec_load (insn : Nat) (pos : Bool) (s : Hart) : Hart × Option String :=
  let rd := get_rd insn
  let rs1 := get_rs1 insn
  let f3 := get_funct3 insn
  let imm := get_imm_i insn
  let base := s.regs.get rs1
  let addr := addw base imm
  let finish := fun (mnemonic : String) (loaded : Int) =>
    ({ s with regs := s.regs.set rd (word32 loaded), pc := (s.pc + 4) % 4294967296 },
     if pos then
       some (padTrace (render_itype_load insn mnemonic) ++ "// " ++ render_reg rd ++
         " = mem[" ++ to_hex0x32 addr ++ "] = " ++ to_hex0x32 (word32 loaded))
     else none)
  if f3 = 0b000 then finish "lb" (s.mem.get8_sx addr)
  else if f3 = 0b001 then finish "lh" (s.mem.get16_sx addr)
  else if f3 = 0b010 then finish "lw" (toInt32 (s.mem.get32 addr))
  else if f3 = 0b100 then finish "lbu" (s.mem.get8 addr)
  else if f3 = 0b101 then finish "lhu" (s.mem.get16 addr)
  else exec_illegal_insn insn pos s

/-- `rv32i_hart::exec_store`: sb, sh, sw. -/
def exec_store (insn : Nat) (pos : Bool) (s : Hart) : Hart × Option String :=
  let rs1 := get_rs1 insn
  let rs2 := get_rs2 insn
  let f3 := get_funct3 insn
  let imm := get_imm_s insn
  let base := s.regs.get rs1
  let addr := addw base imm
  let rs2_u := s.regs.get rs2
  let finish := fun (mnemonic : String) (m : memory) =>
    ({ s with mem := m, pc := (s.pc + 4) % 4294967296 },
     if pos then
       some (padTrace (render_stype insn mnemonic) ++ "// mem[" ++ to_hex0x32 addr ++
         "] = " ++ to_hex0x32 rs2_u)
     else none)
  if f3 = 0b000 then finish "sb" (s.mem.set8 addr (rs2_u &&& 0xff))
  else if f3 = 0b001 then finish "sh" (s.mem.set16 addr (rs2_u &&& 0xffff))
  else if f3 = 0b010 then finish "sw" (s.mem.set32 addr rs2_u)
  else exec_illegal_insn insn pos s

/-- `rv32i_hart::exec_branch`: beq, bne, blt, bge, bltu, bgeu. -/
def exec_branch (insn : Nat) (pos : Bool) (s : Hart) : Hart × Option String :=
  let rs1 := get_rs1 insn
  let rs2 := get_rs2 insn
  let f3 := get_funct3 insn
  let w1 := s.regs.get rs1
  let w2 := s.regs.get rs2
  let rs1_val := toInt32 w1
  let rs2_val := toInt32 w2
  let pc_before := s.pc
  let imm := get_imm_b insn
  let target := addw pc_before imm
  let finish := fun (mnemonic : String) (take : Bool) =>
    ({ s with pc := if take then target else (pc_before + 4) % 4294967296 },
     if pos then
       some (padTrace (render_btype pc_before insn mnemonic) ++ "// " ++
         render_reg rs1 ++ " = " ++ to_hex0x32 w1 ++ ", " ++
         render_reg rs2 ++ " = " ++ to_hex0x32 w2 ++ ", " ++
         (if take then "br_taken  pc = " ++ to_hex0x32 target
          else "br_not_taken  pc = " ++ to_hex0x32 ((pc_before + 4) % 4294967296)))
     else none)
  if f3 = 0b000 then finish "beq" (rs1_val = rs2_val)
  else if f3 = 0b001 then finish "bne" (rs1_val ≠ rs2_val)
  else if f3 = 0b100 then finish "blt" (rs1_val < rs2_val)
  else if f3 = 0b101 then finish "bge" (rs1_val ≥ rs2_val)
  else if f3 = 0b110 then finish "bltu" (w1 < w2)
  else if f3 = 0b111 then finish "bgeu" (w1 ≥ w2)
  else exec_illegal_insn insn pos s

/-- `rv32i_hart::exec_ecall`: halt with reason "ECALL instruction". -/
def exec_ecall (insn : Nat) (pos : Bool) (s : Hart) : Hart × Option String :=
  let _ := insn
  ({ s with halt := true, halt_reason := "ECALL instruction" },
   if pos then some (padTrace "ecall" ++ "// HALT") else none)

/-- `rv32i_hart::exec_ebreak`: halt with reason "EBREAK instruction". -/
def exec_ebreak (insn : Nat) (pos : Bool) (s : Hart) : Hart × Option String :=
  let _ := insn
  ({ s with halt := true, halt_reason := "EBREAK instruction" },
   if pos then some (padTrace "ebreak" ++ "// HALT") else none)

/-- `rv32i_hart::exec_csrrx`: csrrw, csrrs, csrrc. -/
def exec_csrrx (insn : Nat) (pos : Bool) (s : Hart) (mnemonic : String) :
    Hart × Option String :=
  let rd := get_rd insn
  let rs1 := get_rs1 insn
  let csr_addr := insn >>> 20
  if csr_addr ≥ 4096 then exec_illegal_insn insn pos s
  else
    let old_val := s.csr.getD csr_addr 0
    let rs1_val := s.regs.get rs1
    let new_val :=
      if mnemonic = "csrrw" then rs1_val
      else if mnemonic = "csrrs" then (if rs1 ≠ 0 then old_val ||| rs1_val else old_val)
      else if mnemonic = "csrrc" then
        (if rs1 ≠ 0 then old_val &&& (rs1_val ^^^ 0xffffffff) else old_val)
      else old_val
    if mnemonic ≠ "csrrw" ∧ mnemonic ≠ "csrrs" ∧ mnemonic ≠ "csrrc" then
      exec_illegal_insn insn pos s
    else
      ({ s with
          csr := s.csr.set csr_addr new_val
          regs := if rd ≠ 0 then s.regs.set rd old_val else s.regs
          pc := (s.pc + 4) % 4294967296 },
       if pos then
         some (padTrace (render_csrrx insn mnemonic) ++ "// csr[" ++
           to_hex0x12 csr_addr ++ "] was " ++ to_hex0x32 old_val ++ ", now " ++
           to_hex0x32 new_val ++
           (if rd ≠ 0 then "; " ++ render_reg rd ++ " = " ++ to_hex0x32 old_val else ""))
       else none)

/-- `rv32i_hart::exec_csrrxi`: csrrwi, csrrsi, csrrci (5-bit zimm from
the rs1 field). -/
def exec_csrrxi (insn : Nat) (pos : Bool) (s : Hart) (mnemonic : String) :
    Hart × Option String :=
  let rd := get_rd insn
  let zimm := get_rs1 insn
  let csr_addr := insn >>> 20
  if csr_addr ≥ 4096 then exec_illegal_insn insn pos s
  else
    let old_val := s.csr.getD csr_addr 0
    let new_val :=
      if mnemonic = "csrrwi" then zimm
      else if mnemonic = "csrrsi" then (if zimm ≠ 0 then old_val ||| zimm else old_val)
      else if mnemonic = "csrrci" then
        (if zimm ≠ 0 then old_val &&& (zimm ^^^ 0xffffffff) else old_val)
      else old_val
    if mnemonic ≠ "csrrwi" ∧ mnemonic ≠ "csrrsi" ∧ mnemonic ≠ "csrrci" then
      exec_illegal_insn insn pos s
    else
      ({ s with
          csr := s.csr.set csr_addr new_val
          regs := if rd ≠ 0 then s.regs.set rd old_val else s.regs
          pc := (s.pc + 4) % 4294967296 },
       if pos then
         some (padTrace (render_csrrxi insn mnemonic) ++ "// csr[" ++
           to_hex0x12 csr_addr ++ "] was " ++ to_hex0x32 old_val ++ ", now " ++
           to_hex0x32 new_val ++
           (if rd ≠ 0 then "; " ++ render_reg rd ++ " = " ++ to_hex0x32 old_val else ""))
       else none)

/-- `rv32i_hart::exec`: dispatch one instruction by opcode; `pos` is
whether a trace stream was supplied (`&cout` vs `nullptr`). -/
def exec (insn : Nat) (pos : Bool) (s : Hart) : Hart × Option String :=
  let opcode := get_opcode insn
  if opcode = opcode_lui then exec_lui insn pos s
  else if opcode = opcode_auipc then exec_auipc insn pos s
  else if opcode = opcode_jal then exec_jal insn pos s
  else if opcode = opcode_jalr then exec_jalr insn pos s
  else if opcode = opcode_alu_imm then exec_alu_imm insn pos s
  else if opcode = opcode_alu_reg then exec_alu_reg insn pos s
  else if opcode = opcode_load then exec_load insn pos s
  else if opcode = opcode_store then exec_store insn pos s
  else if opcode = opcode_btype then exec_branch insn pos s
  else if opcode = opcode_system then
    let f3 := get_funct3 insn
    if f3 = 0b000 then
      if insn = 0x00000073 then exec_ecall insn pos s
      else if insn = 0x00100073 then exec_ebreak insn pos s
      else exec_illegal_insn insn pos s
    else if f3 = 0b001 then exec_csrrx insn pos s "csrrw"
    else if f3 = 0b010 then exec_csrrx insn pos s "csrrs"
    else if f3 = 0b011 then exec_csrrx insn pos s "csrrc"
    else if f3 = 0b101 then exec_csrrxi insn pos s "csrrwi"
    else if f3 = 0b110 then exec_csrrxi insn pos s "csrrsi"
    else if f3 = 0b111 then exec_csrrxi insn pos s "csrrci"
    else exec_illegal_insn insn pos s
  else exec_illegal_insn insn pos s

/-- One row of `rv32i_hart::dump` (8 registers, double space after the
4th value). -/
def dumpRow (s : Hart) (label : String) (base : Nat) : String :=
  label ++
    to_hex32 (s.regs.get base) ++ " " ++
    to_hex32 (s.regs.get (base + 1)) ++ " " ++
    to_hex32 (s.regs.get (base + 2)) ++ " " ++
    to_hex32 (s.regs.get (base + 3)) ++ "  " ++
    to_hex32 (s.regs.get (base + 4)) ++ " " ++
    to_hex32 (s.regs.get (base + 5)) ++ " " ++
    to_hex32 (s.regs.get (base + 6)) ++ " " ++
    to_hex32 (s.regs.get (base + 7))

/-- The lines printed by `rv32i_hart::dump` (the `hdr` argument is
explicitly unused in the source). -/
def dumpLines (s : Hart) : List String :=
  [dumpRow s " x0 " 0, dumpRow s " x8 " 8, dumpRow s "x16 " 16, dumpRow s "x24 " 24,
   " pc " ++ to_hex32 s.pc]

/-- `rv32i_hart::tick`: returns the post-state and the list of lines
printed to `std::cout` during the tick. -/
def tick (hdr : String) (s : Hart) : Hart × List String :=
  if s.halt then (s, [])
  else
    let dumpOut := if s.show_registers then dumpLines s else []
    if s.pc &&& 0x3 ≠ 0 then
      ({ s with halt := true, halt_reason := "PC alignment error" }, dumpOut)
    else
      let s1 := { s with insn_counter := s.insn_counter + 1 }
      let insn := s.mem.get32 s.pc
      if s.show_instructions then
        let r := exec insn true s1
        (r.1, dumpOut ++
          [hdr ++ to_hex32 s.pc ++ ": " ++ to_hex32 insn ++ "  " ++ (r.2.getD "")])
      else
        ((exec insn false s1).1, dumpOut)

/-- The state component of one `tick` (empty header, as in
`cpu_single_hart::run`). -/
def tickState (s : Hart) : Hart := (tick "" s).1

/-- `n` consecutive ticks. -/
def ticksN : Nat → Hart → Hart
  | 0, s => s
  | n + 1, s => tickState (ticksN n s)

/-! ### cpu_single_hart.cpp -/

/-- The state of the hart at entry of `cpu_single_hart::run`'s loop:
line 30 of `cpu_single_hart.cpp` has just stored the memory size into
register x2 (`regs.set(2, static_cast<int32_t>(mem.get_size()))`);
no tick has run yet. -/
def run_entry (s : Hart) : Hart :=
  { s with regs := s.regs.set 2 s.mem.get_size }

/-! ### Sample concrete states used by witnesses -/

/-- A small concrete memory. -/
def sampleMem : memory := memory.init 16

/-- A freshly reset hart over `sampleMem`. -/
def sampleHart : Hart := Hart.reset (Hart.mk0 sampleMem)

/-- `sampleHart`, halted. -/
def sampleHaltedHart : Hart :=
  { sampleHart with
    halt := true
    halt_reason := "EBREAK instruction"
    show_instructions := true
    show_registers := true }

/-- `sampleHart` with a misaligned program counter. -/
def sampleMisalignedHart : Hart := { sampleHart with pc := 2 }

/-! ### Generic arithmetic helper lemmas -/

/-- `x & 0x3` is `x mod 4` (the alignment test in `tick`). -/
lemma and_three_eq_mod (x : Nat) : x &&& 3 = x % 4 := by
  have h := Nat.and_pow_two_sub_one_eq_mod x 2
  norm_num at h
  exact h

/-- `x & 0xfffffff0` keeps the high 28 of 32 bits: it equals
`16 * (x / 16)` for 32-bit `x`. -/
lemma and_mask_high16 (x : Nat) (hx : x < 4294967296) :
    x &&& 0xfffffff0 = 16 * (x / 16) := by
  have h16 : (16 : Nat) * (x / 16) = 2 ^ 4 * (x >>> 4) := by
    rw [Nat.shiftRight_eq_div_pow]
    norm_num
  rw [h16]
  apply Nat.eq_of_testBit_eq
  intro i
  have hmask : (0xfffffff0 : Nat) = 2 ^ 4 * (2 ^ 28 - 1) := by norm_num
  rw [Nat.testBit_and, hmask, Nat.testBit_mul_pow_two, Nat.testBit_mul_pow_two]
  have hsh : Nat.testBit (x >>> 4) (i - 4) = Nat.testBit x (4 + (i - 4)) :=
    Nat.testBit_shiftRight x
  rcases Nat.lt_or_ge i 4 with h4 | h4
  · simp [Nat.not_le_of_lt h4]
  · have hi4 : 4 + (i - 4) = i := by omega
    rw [hi4] at hsh
    rcases Nat.lt_or_ge i 32 with h32 | h32
    · have hlt : i - 4 < 28 := by omega
      have e1 : Nat.testBit 268435455 (i - 4) = true := by
        have h28 : (268435455 : Nat) = 2 ^ 28 - 1 := by norm_num
        rw [h28, Nat.testBit_two_pow_sub_one]
        simp [hlt]
      simp [h4, e1, hsh]
    · have hxb : x.testBit i = false := by
        apply Nat.testBit_lt_two_pow
        calc x < 4294967296 := hx
          _ = 2 ^ 32 := by norm_num
          _ ≤ 2 ^ i := Nat.pow_le_pow_right (by norm_num) h32
      have hge : ¬ (i - 4 < 28) := by omega
      have e1 : Nat.testBit 268435455 (i - 4) = false := by
        have h28 : (268435455 : Nat) = 2 ^ 28 - 1 := by norm_num
        rw [h28, Nat.testBit_two_pow_sub_one]
        simp [hge]
      simp [h4, e1, hsh, hxb]

/-- Recombining a low and a high 16-bit half with `|` is addition
(the `first | second` of `memory::get32`). -/
lemma lor_low_high (lo hi : Nat) (hlo : lo < 65536) :
    lo ||| (hi <<< 16) = lo + hi * 65536 := by
  have hlo2 : lo < 2 ^ 16 := by
    have h2 : (2 : Nat) ^ 16 = 65536 := by norm_num
    omega
  calc lo ||| (hi <<< 16) = hi <<< 16 ||| lo := Nat.lor_comm _ _
    _ = 2 ^ 16 * hi ||| lo := by rw [Nat.shiftLeft_eq, Nat.mul_comm]
    _ = 2 ^ 16 * hi + lo := (Nat.mul_add_lt_is_or hlo2 hi).symm
    _ = lo + hi * 65536 := by ring

/-! ### Properties of the minimal-width hex rendering -/

/-- Numeric value of a most-significant-first hex digit string. -/
def hexValChars (cs : List Char) : Nat :=
  cs.foldl (fun a c => 16 * a + hexCharVal c) 0

/-- Numeric value of a hex string. -/
def hexValStr (s : String) : Nat := hexValChars s.data

lemma hexValChars_append_one (cs : List Char) (c : Char) :
    hexValChars (cs ++ [c]) = 16 * hexValChars cs + hexCharVal c := by
  simp [hexValChars, List.foldl_append]

lemma hexCharVal_hexDigitChar : ∀ d : Nat, d < 16 → hexCharVal (hexDigitChar d) = d := by
  decide

lemma hexDigitsAux_spec :
    ∀ fuel n : Nat, n < fuel →
      hexValChars (hexDigitsAux fuel n) = n ∧
      1 ≤ (hexDigitsAux fuel n).length ∧
      ∀ k, 1 ≤ k → n < 16 ^ k → (hexDigitsAux fuel n).length ≤ k := by
  intro fuel
  induction fuel with
  | zero => intro n h; omega
  | succ fuel ih =>
    intro n _
    by_cases h16 : n < 16
    · refine ⟨?_, ?_, ?_⟩
      · simp [hexDigitsAux, h16, hexValChars, hexCharVal_hexDigitChar n h16]
      · simp [hexDigitsAux, h16]
      · intro k hk _
        simp [hexDigitsAux, h16]
        omega
    · have hdiv : n / 16 < fuel := by omega
      have hrec := ih (n / 16) hdiv
      have hmod : n % 16 < 16 := Nat.mod_lt n (by norm_num)
      refine ⟨?_, ?_, ?_⟩
      · rw [show hexDigitsAux (fuel + 1) n =
          hexDigitsAux fuel (n / 16) ++ [hexDigitChar (n % 16)] by
            simp [hexDigitsAux, h16]]
        rw [hexValChars_append_one, hrec.1, hexCharVal_hexDigitChar _ hmod]
        omega
      · simp [hexDigitsAux, h16]
      · intro k hk hklt
        rcases Nat.lt_or_ge k 2 with hk2 | hk2
        · exfalso
          have : k = 1 := by omega
          subst this
          simp at hklt
          omega
        · have hq : n / 16 < 16 ^ (k - 1) := by
            rw [Nat.div_lt_iff_lt_mul (by norm_num : (0:Nat) < 16)]
            calc n < 16 ^ k := hklt
              _ = 16 ^ (k - 1) * 16 := by
                rw [← Nat.pow_succ]
                congr 1
                omega
          have := hrec.2.2 (k - 1) (by omega) hq
          simp [hexDigitsAux, h16]
          omega

lemma natToHexMin_spec (n : Nat) :
    hexValStr (natToHexMin n) = n ∧
    1 ≤ (natToHexMin n).length ∧
    ∀ k, 1 ≤ k → n < 16 ^ k → (natToHexMin n).length ≤ k := by
  have h := hexDigitsAux_spec (n + 1) n (by omega)
  simpa [natToHexMin, hexValStr, String.length] using h

/-! ### Memory access helper lemmas -/

lemma and_ff_eq_mod (x : Nat) : x &&& 255 = x % 256 := by
  have h := Nat.and_pow_two_sub_one_eq_mod x 8
  norm_num at h
  exact h

lemma and_ffff_eq_mod (x : Nat) : x &&& 65535 = x % 65536 := by
  have h := Nat.and_pow_two_sub_one_eq_mod x 16
  norm_num at h
  exact h

lemma shr_eight_eq_div (x : Nat) : x >>> 8 = x / 256 := by
  rw [Nat.shiftRight_eq_div_pow]

lemma shr_sixteen_eq_div (x : Nat) : x >>> 16 = x / 65536 := by
  rw [Nat.shiftRight_eq_div_pow]

lemma memory.length_set8 (m : memory) (a x : Nat) :
    (m.set8 a x).mem.length = m.mem.length := by
  unfold memory.set8
  split <;> simp

lemma memory.get8_set8_self (m : memory) (a x : Nat) (h : a < m.mem.length) :
    (m.set8 a x).get8 a = x % 256 := by
  simp only [memory.set8, h, if_pos, memory.get8]
  rw [if_pos (by simpa using h)]
  simp [List.getD_eq_getElem?_getD, List.getElem?_set_self (by simpa using h)]

lemma memory.get8_set8_other (m : memory) (a b x : Nat) (hab : a ≠ b) :
    (m.set8 a x).get8 b = m.get8 b := by
  by_cases h : a < m.mem.length
  · simp only [memory.set8, h, if_pos, memory.get8, List.length_set]
    by_cases hb : b < m.mem.length
    · rw [if_pos hb, if_pos hb]
      simp [List.getD_eq_getElem?_getD, List.getElem?_set_ne hab]
    · rw [if_neg hb, if_neg hb]
  · simp [memory.set8, h]

/-- The four bytes written by `memory::set32` at an in-range address:
`v` little-endian, lowest address first. -/
lemma memory.get8_set32 (m : memory) (a v : Nat) (hv : v < 4294967296)
    (ha : a + 3 < m.mem.length) :
    (m.set32 a v).get8 a = v % 256 ∧
    (m.set32 a v).get8 (a + 1) = v / 256 % 256 ∧
    (m.set32 a v).get8 (a + 2) = v / 65536 % 256 ∧
    (m.set32 a v).get8 (a + 3) = v / 16777216 % 256 := by
  have h0 : a < m.mem.length := by omega
  have h1 : a + 1 < m.mem.length := by omega
  have h2 : a + 2 < m.mem.length := by omega
  have h3 : a + 3 < m.mem.length := by omega
  simp only [memory.set32, memory.set16, Nat.mod_eq_of_lt hv,
    and_ffff_eq_mod, and_ff_eq_mod, shr_eight_eq_div, shr_sixteen_eq_div]
  have l1 : ∀ x, (m.set8 a x).mem.length = m.mem.length := fun x => m.length_set8 a x
  refine ⟨?_, ?_, ?_, ?_⟩
  · rw [memory.get8_set8_other _ _ _ _ (by omega), memory.get8_set8_other _ _ _ _ (by omega),
      memory.get8_set8_other _ _ _ _ (by omega), memory.get8_set8_self _ _ _ h0]
    omega
  · rw [memory.get8_set8_other _ _ _ _ (by omega), memory.get8_set8_other _ _ _ _ (by omega),
      memory.get8_set8_self _ _ _ (by rw [memory.length_set8]; omega)]
    omega
  · rw [memory.get8_set8_other _ _ _ _ (by omega),
      memory.get8_set8_self _ _ _ (by rw [memory.length_set8, memory.length_set8]; omega)]
    omega
  · rw [memory.get8_set8_self _ _ _
      (by rw [memory.length_set8, memory.length_set8, memory.length_set8]; omega)]
    omega

/-! ### Claim C4: misaligned program counter -/

/-- C4: on a non-halted hart whose program counter is not a multiple of
four, a tick only sets `halt` with reason "PC alignment error": the
instruction counter is not incremented, no fetch happens, and registers,
memory and CSRs (indeed every other field) are unchanged. -/
theorem claim_C4_misaligned_tick (s : Hart) (hdr : String)
    (hh : s.halt = false) (ha : s.pc % 4 ≠ 0) :
    (tick hdr s).1 = { s with halt := true, halt_reason := "PC alignment error" } := by
  have hb : s.pc &&& 0x3 ≠ 0 := by
    rw [and_three_eq_mod]
    exact ha
  simp only [tick, hh, Bool.false_eq_true, if_false]
  rw [if_pos hb]

/-- Witness for C4 at a concrete misaligned state. -/
theorem claim_C4_witness :
    sampleMisalignedHart.halt = false ∧ sampleMisalignedHart.pc % 4 ≠ 0 ∧
    (tick "" sampleMisalignedHart).1 =
      { sampleMisalignedHart with halt := true, halt_reason := "PC alignment error" } :=
  ⟨by decide, by decide, claim_C4_misaligned_tick sampleMisalignedHart "" (by decide) (by decide)⟩

/-! ### Claim C6: register 0 is hard-wired to zero -/

/-- C6: `registerfile::get(0)` returns 0 in every state, still does so
after any `registerfile::set` (any index, any value), and after every
hart tick. -/
theorem claim_C6_x0_reads_zero :
    (∀ rf : registerfile, rf.get 0 = 0) ∧
    (∀ (rf : registerfile) (r v : Nat), (rf.set r v).get 0 = 0) ∧
    (∀ (hdr : String) (s : Hart), ((tick hdr s).1.regs).get 0 = 0) :=
  ⟨fun _ => rfl, fun _ _ _ => rfl, fun _ _ => rfl⟩

/-! ### Claim C7: tick is a no-op on a halted hart -/

/-- C7: when `halt` is set, `tick` leaves the whole state unchanged and
prints nothing, even when both trace flags are set. -/
theorem claim_C7_halted_tick_noop (s : Hart) (hdr : String) (hh : s.halt = true) :
    tick hdr s = (s, []) := by
  simp [tick, hh]

/-- Witness for C7 at a concrete halted state with both trace flags set. -/
theorem claim_C7_witness :
    sampleHaltedHart.halt = true ∧
    sampleHaltedHart.show_instructions = true ∧
    sampleHaltedHart.show_registers = true ∧
    tick "" sampleHaltedHart = (sampleHaltedHart, []) :=
  ⟨by decide, by decide, by decide, claim_C7_halted_tick_noop sampleHaltedHart "" (by decide)⟩

/-! ### Claim C10: cpu_single_hart::run seeds x2 with the memory size -/

/-- An in-range, non-x0 `registerfile::set` is read back by `get`
(modulo the 32-bit pattern truncation of the stored `int32_t`). -/
lemma registerfile.get_set_self (rf : registerfile) (r v : Nat)
    (h0 : r ≠ 0) (h32 : r < 32) (hlen : rf.regs.length = 32) :
    (rf.set r v).get r = v % 4294967296 := by
  have hcond : ¬ (r = 0 ∨ r ≥ 32) := by omega
  simp only [registerfile.set, registerfile.get, hcond, if_false]
  have hr : r < rf.regs.length := by omega
  simp [List.getD_eq_getElem?_getD, List.getElem?_set_self hr]

/-- `registerfile::set` at one index leaves `get` at any other index
unchanged. -/
lemma registerfile.get_set_other (rf : registerfile) (q r v : Nat) (hqr : q ≠ r) :
    (rf.set q v).get r = rf.get r := by
  by_cases hq : q = 0 ∨ q ≥ 32
  · simp [registerfile.set, hq]
  · by_cases h0 : r = 0 ∨ r ≥ 32
    · simp [registerfile.set, registerfile.get, hq, h0]
    · simp [registerfile.set, registerfile.get, hq, h0,
        List.getD_eq_getElem?_getD, List.getElem?_set_ne hqr]

/-- C10: at entry of `cpu_single_hart::run`'s loop (before the first
tick) register x2 holds the memory size, replacing its post-reset value
`0xf0f0f0f0`; every other register still reads its post-reset value. -/
theorem claim_C10_run_seeds_x2 (m : memory) :
    (run_entry (Hart.reset (Hart.mk0 m))).regs.get 2 = m.get_size ∧
    (Hart.reset (Hart.mk0 m)).regs.get 2 = 0xf0f0f0f0 ∧
    ∀ r : Nat, r ≠ 2 →
      (run_entry (Hart.reset (Hart.mk0 m))).regs.get r =
        (Hart.reset (Hart.mk0 m)).regs.get r := by
  refine ⟨?_, rfl, ?_⟩
  · have h := registerfile.get_set_self registerfile.afterReset 2 m.get_size
      (by decide) (by decide) (by decide)
    calc (run_entry (Hart.reset (Hart.mk0 m))).regs.get 2
        = registerfile.get (registerfile.set registerfile.afterReset 2 m.get_size) 2 := rfl
      _ = m.get_size % 4294967296 := h
      _ = m.get_size := by
        simp only [memory.get_size]
        omega
  · intro r hr
    exact registerfile.get_set_other registerfile.afterReset 2 r m.get_size
      (fun he => hr he.symm)

/-- Witness for C10 at a concrete memory and register index. -/
theorem claim_C10_witness :
    (run_entry (Hart.reset (Hart.mk0 (memory.init 0x100)))).regs.get 2 =
      (memory.init 0x100).get_size ∧
    (run_entry (Hart.reset (Hart.mk0 (memory.init 0x100)))).regs.get 3 =
      (Hart.reset (Hart.mk0 (memory.init 0x100))).regs.get 3 :=
  ⟨(claim_C10_run_seeds_x2 (memory.init 0x100)).1,
   (claim_C10_run_seeds_x2 (memory.init 0x100)).2.2 3 (by decide)⟩

/-! ### Claim C5: set32/get32 round trip -/

/-- C5 counterexample: the claim's hypothesis `a < memory size` is not
enough. In a 16-byte memory, address 14 is in range, but
`set32(14, 0x10000)` drops the two high bytes (out of range) and
`get32(14)` reads them back as zero, so the round trip fails. -/
theorem claim_C5_counterexample :
    14 < (memory.init 16).get_size ∧
    ((memory.init 16).set32 14 65536).get32 14 ≠ 65536 ∧
    ((memory.init 16).set32 14 65536).get32 14 = 0 := by
  refine ⟨by decide, by decide, by decide⟩

/-- C5 as amended: when all four bytes are in range
(`a + 3 < memory size`), `set32(a, v)` followed by `get32(a)` returns
`v`, and the four bytes at `a..a+3` hold `v` little-endian (lowest
address = least significant byte). -/
theorem claim_C5_amended_set32_get32 (m : memory) (a v : Nat)
    (hv : v < 4294967296) (ha : a + 3 < m.get_size) :
    (m.set32 a v).get32 a = v ∧
    (m.set32 a v).get8 a = v % 256 ∧
    (m.set32 a v).get8 (a + 1) = v / 256 % 256 ∧
    (m.set32 a v).get8 (a + 2) = v / 65536 % 256 ∧
    (m.set32 a v).get8 (a + 3) = v / 16777216 % 256 := by
  have halen : a + 3 < m.mem.length := by
    have : m.get_size ≤ m.mem.length := Nat.mod_le _ _
    omega
  obtain ⟨b0, b1, b2, b3⟩ := memory.get8_set32 m a v hv halen
  refine ⟨?_, b0, b1, b2, b3⟩
  have h16lo : (m.set32 a v).get16 a = v % 65536 := by
    rw [memory.get16, b0, b1, Nat.shiftLeft_eq]
    norm_num
    omega
  have h16hi : (m.set32 a v).get16 (a + 2) = v / 65536 % 65536 := by
    rw [memory.get16, show a + 2 + 1 = a + 3 by omega, b2, b3, Nat.shiftLeft_eq]
    norm_num
    omega
  rw [memory.get32, h16lo, h16hi, lor_low_high _ _ (by omega)]
  omega

/-- Witness for C5 at a concrete memory, address and value. -/
theorem claim_C5_witness :
    ((memory.init 0x100).set32 0x40 0xDEADBEEF).get32 0x40 = 0xDEADBEEF ∧
    ((memory.init 0x100).set32 0x40 0xDEADBEEF).get8 0x40 = 0xEF ∧
    ((memory.init 0x100).set32 0x40 0xDEADBEEF).get8 0x41 = 0xBE ∧
    ((memory.init 0x100).set32 0x40 0xDEADBEEF).get8 0x42 = 0xAD ∧
    ((memory.init 0x100).set32 0x40 0xDEADBEEF).get8 0x43 = 0xDE :=
  claim_C5_amended_set32_get32 (memory.init 0x100) 0x40 0xDEADBEEF
    (by norm_num) (by decide)

/-! ### Claim C9: memory size rounding -/

/-- C9 counterexample: the constructor's `(s + 15) & 0xfffffff0` is
`uint32_t` arithmetic, so for `s = 0xffffffff` the requested size
overflows and the memory is allocated with length 0, not
`s` rounded up to the next multiple of 16 (which would be `2^32`). -/
theorem claim_C9_counterexample :
    (memory.init 4294967295).get_size = 0 ∧
    16 * ((4294967295 + 15) / 16) = 4294967296 ∧
    (memory.init 4294967295).get_size ≠ 16 * ((4294967295 + 15) / 16) := by
  refine ⟨by decide, by norm_num, ?_⟩
  intro h
  rw [show (memory.init 4294967295).get_size = 0 by decide] at h
  norm_num at h

/-- C9 as amended: the length is always a multiple of 16; it equals `s`
rounded up to the next multiple of 16 whenever `s + 15` does not
overflow `uint32_t` (`s ≤ 0xfffffff0`); and no `set8`/`set16`/`set32`
ever changes it. -/
theorem claim_C9_amended_size (s : Nat) (hs : s < 4294967296) :
    (memory.init s).get_size % 16 = 0 ∧
    (s ≤ 4294967280 → (memory.init s).get_size = 16 * ((s + 15) / 16)) ∧
    ∀ (m : memory) (a v : Nat),
      (m.set8 a v).get_size = m.get_size ∧
      (m.set16 a v).get_size = m.get_size ∧
      (m.set32 a v).get_size = m.get_size := by
  have hx : (s % 4294967296 + 15) % 4294967296 < 4294967296 :=
    Nat.mod_lt _ (by norm_num)
  have hlen : (memory.init s).mem.length =
      (s % 4294967296 + 15) % 4294967296 &&& 0xfffffff0 := by
    simp [memory.init]
  have hand := and_mask_high16 ((s % 4294967296 + 15) % 4294967296) hx
  refine ⟨?_, ?_, ?_⟩
  · rw [memory.get_size, hlen, hand]
    omega
  · intro hs16
    have h1 : s % 4294967296 = s := Nat.mod_eq_of_lt hs
    have h2 : (s + 15) % 4294967296 = s + 15 := Nat.mod_eq_of_lt (by omega)
    have hand2 := and_mask_high16 (s + 15) (by omega)
    rw [memory.get_size, hlen, h1, h2, hand2]
    have hle : 16 * ((s + 15) / 16) ≤ s + 15 := Nat.mul_div_le _ _
    omega
  · intro m a v
    have l8 : ∀ (mm : memory) (b w : Nat), (mm.set8 b w).get_size = mm.get_size := by
      intro mm b w
      rw [memory.get_size, memory.get_size, memory.length_set8]
    refine ⟨l8 m a v, ?_, ?_⟩
    · rw [memory.set16, l8, l8]
    · rw [memory.set32, memory.set16, memory.set16, l8, l8, l8, l8]

/-- Witness for C9 at a concrete requested size. -/
theorem claim_C9_witness :
    (memory.init 100).get_size % 16 = 0 ∧
    (memory.init 100).get_size = 16 * ((100 + 15) / 16) ∧
    (((memory.init 100).set32 4 7).get_size = (memory.init 100).get_size) :=
  ⟨(claim_C9_amended_size 100 (by norm_num)).1,
   (claim_C9_amended_size 100 (by norm_num)).2.1 (by norm_num),
   ((claim_C9_amended_size 100 (by norm_num)).2.2 (memory.init 100) 4 7).2.2⟩

/-! ### Claim C1: lui/auipc immediate rendering -/

/-- `word32` always produces a 32-bit value. -/
lemma word32_lt (i : Int) : word32 i < 4294967296 := by
  unfold word32
  omega

/-- C1 counterexample: `render_lui` streams the immediate with bare
`std::hex`, not `to_hex0x20`, so for `lui x1,1` (word `0x000010b7`) the
immediate field is `0x1` — one digit, not the claimed exactly five. -/
theorem claim_C1_counterexample :
    decode 0 0x000010B7 = "lui     x1,0x1" ∧
    to_hex0x20 1 = "0x00001" ∧
    decode 0 0x000010B7 ≠ render_mnemonic "lui" ++ render_reg 1 ++ "," ++ to_hex0x20 1 :=
  ⟨by decide, by decide, by decide⟩

/-- C1 as amended: for every lui/auipc word the decoder shows the
immediate as `0x` followed by the minimal-width (1 to 5 digit,
no leading zeros) lowercase hex rendering of the U-type immediate
shifted right by 12; the field's numeric value is exactly that
shifted immediate. -/
theorem claim_C1_amended_upper_imm (addr insn : Nat)
    (h : get_opcode insn = opcode_lui ∨ get_opcode insn = opcode_auipc) :
    decode addr insn =
      render_mnemonic (if get_opcode insn = opcode_lui then "lui" else "auipc") ++
        render_reg (get_rd insn) ++ ",0x" ++ natToHexMin (uimm20 insn) ∧
    uimm20 insn = word32 (get_imm_u insn) >>> 12 ∧
    hexValStr (natToHexMin (uimm20 insn)) = uimm20 insn ∧
    1 ≤ (natToHexMin (uimm20 insn)).length ∧
    (natToHexMin (uimm20 insn)).length ≤ 5 := by
  have hsh : word32 (get_imm_u insn) >>> 12 < 1048576 := by
    have hw := word32_lt (get_imm_u insn)
    rw [Nat.shiftRight_eq_div_pow]
    omega
  have hid : uimm20 insn = word32 (get_imm_u insn) >>> 12 := by
    unfold uimm20
    have := Nat.and_pow_two_sub_one_eq_mod (word32 (get_imm_u insn) >>> 12) 20
    norm_num at this
    rw [this]
    omega
  have hlt : uimm20 insn < 16 ^ 5 := by
    rw [hid]
    norm_num
    exact hsh
  have hspec := natToHexMin_spec (uimm20 insn)
  refine ⟨?_, hid, hspec.1, hspec.2.1, hspec.2.2 5 (by norm_num) hlt⟩
  rcases h with h | h
  · rw [if_pos h]
    unfold decode
    rw [if_pos h]
    rfl
  · have hne : get_opcode insn ≠ opcode_lui := by
      rw [h]
      decide
    rw [if_neg hne]
    unfold decode
    rw [if_neg hne, if_pos h]
    rfl

/-- Witness for C1 at the concrete word `0x000010b7` (`lui x1,0x1`). -/
theorem claim_C1_witness :
    decode 0 0x000010B7 =
      render_mnemonic (if get_opcode 0x000010B7 = opcode_lui then "lui" else "auipc") ++
        render_reg (get_rd 0x000010B7) ++ ",0x" ++ natToHexMin (uimm20 0x000010B7) ∧
    uimm20 0x000010B7 = word32 (get_imm_u 0x000010B7) >>> 12 ∧
    hexValStr (natToHexMin (uimm20 0x000010B7)) = uimm20 0x000010B7 ∧
    1 ≤ (natToHexMin (uimm20 0x000010B7)).length ∧
    (natToHexMin (uimm20 0x000010B7)).length ≤ 5 :=
  claim_C1_amended_upper_imm 0 0x000010B7 (Or.inl (by decide))

/-! ### Claim C2: ALU-register funct7 validation -/

/-- The funct7 values the ALU-register opcode accepts, per funct3:
`0000000` or `0100000` for funct3 000 (add/sub) and 101 (srl/sra),
`0000000` alone for every other funct3. -/
def aluRegAllowedF7 (insn : Nat) : Prop :=
  ((get_funct3 insn = 0 ∨ get_funct3 insn = 5) ∧
    (get_funct7 insn = 0 ∨ get_funct7 insn = 32)) ∨
  (¬(get_funct3 insn = 0 ∨ get_funct3 insn = 5) ∧ get_funct7 insn = 0)

instance (insn : Nat) : Decidable (aluRegAllowedF7 insn) := by
  unfold aluRegAllowedF7
  infer_instance

/-- C2 counterexample: for `sll` (funct3 001) with the disallowed
funct7 `0000001` (word `0x02001033`) the hart does halt, but the
decoder renders `sll x0,x0,x0` — not the claimed fixed error string:
`rv32i_decode::decode` checks funct7 only for funct3 000 and 101. -/
theorem claim_C2_counterexample :
    get_opcode 0x02001033 = opcode_alu_reg ∧
    get_funct3 0x02001033 = 1 ∧
    get_funct7 0x02001033 = 1 ∧
    ¬ aluRegAllowedF7 0x02001033 ∧
    decode 0 0x02001033 = "sll     x0,x0,x0" ∧
    decode 0 0x02001033 ≠ render_illegal_insn :=
  ⟨by decide, by decide, by decide, by decide, by decide, by decide⟩

/-- C2 as amended: for every ALU-register word whose funct7 is not
explicitly allowed for its funct3, executing it halts the hart with
reason "Illegal instruction" (in every state, traced or not); but the
decoder renders the fixed error string only when funct3 is 000 or 101 —
for the other funct3 values it renders the normal mnemonic regardless
of funct7. -/
theorem claim_C2_amended_alu_reg_illegal (addr insn : Nat) (pos : Bool) (s : Hart)
    (hop : get_opcode insn = opcode_alu_reg) (hbad : ¬ aluRegAllowedF7 insn) :
    (exec insn pos s).1.halt = true ∧
    (exec insn pos s).1.halt_reason = "Illegal instruction" ∧
    ((get_funct3 insn = 0 ∨ get_funct3 insn = 5) → decode addr insn = render_illegal_insn) := by
  have hA7 : (get_funct3 insn = 0 ∨ get_funct3 insn = 5) →
      get_funct7 insn ≠ 0 ∧ get_funct7 insn ≠ 32 := by
    intro hA
    constructor
    · intro he
      exact hbad (Or.inl ⟨hA, Or.inl he⟩)
    · intro he
      exact hbad (Or.inl ⟨hA, Or.inr he⟩)
  have hB7 : ¬(get_funct3 insn = 0 ∨ get_funct3 insn = 5) → get_funct7 insn ≠ 0 := by
    intro hA he
    exact hbad (Or.inr ⟨hA, he⟩)
  have h8 : get_funct3 insn < 8 := by
    have : get_funct3 insn ≤ 7 := Nat.and_le_right
    omega
  have hexec : exec insn pos s = exec_alu_reg insn pos s := by
    unfold exec
    rw [hop]
    rfl
  rw [hexec]
  obtain ⟨f3, hf3⟩ : ∃ k, get_funct3 insn = k := ⟨_, rfl⟩
  rw [hf3] at h8
  interval_cases f3
  · have h7 := hA7 (Or.inl hf3)
    unfold exec_alu_reg
    rw [hf3]
    simp only [if_pos rfl, if_neg h7.1, if_neg h7.2]
    refine ⟨rfl, rfl, fun _ => ?_⟩
    unfold decode
    rw [hop]
    norm_num [opcode_lui, opcode_auipc, opcode_jal, opcode_jalr, opcode_btype,
      opcode_load, opcode_store, opcode_alu_imm, opcode_alu_reg, opcode_system]
    rw [hf3]
    simp [h7.1, h7.2]
  · have h7 := hB7 (by rw [hf3]; norm_num)
    unfold exec_alu_reg
    rw [hf3]
    norm_num [h7]
    exact ⟨rfl, rfl⟩
  · have h7 := hB7 (by rw [hf3]; norm_num)
    unfold exec_alu_reg
    rw [hf3]
    norm_num [h7]
    exact ⟨rfl, rfl⟩
  · have h7 := hB7 (by rw [hf3]; norm_num)
    unfold exec_alu_reg
    rw [hf3]
    norm_num [h7]
    exact ⟨rfl, rfl⟩
  · have h7 := hB7 (by rw [hf3]; norm_num)
    unfold exec_alu_reg
    rw [hf3]
    norm_num [h7]
    exact ⟨rfl, rfl⟩
  · have h7 := hA7 (Or.inr hf3)
    unfold exec_alu_reg
    rw [hf3]
    norm_num [h7.1, h7.2]
    refine ⟨rfl, rfl, ?_⟩
    unfold decode
    rw [hop]
    norm_num [opcode_lui, opcode_auipc, opcode_jal, opcode_jalr, opcode_btype,
      opcode_load, opcode_store, opcode_alu_imm, opcode_alu_reg, opcode_system]
    rw [hf3]
    simp [h7.1, h7.2]
  · have h7 := hB7 (by rw [hf3]; norm_num)
    unfold exec_alu_reg
    rw [hf3]
    norm_num [h7]
    exact ⟨rfl, rfl⟩
  · have h7 := hB7 (by rw [hf3]; norm_num)
    unfold exec_alu_reg
    rw [hf3]
    norm_num [h7]
    exact ⟨rfl, rfl⟩

/-- Witness for C2 at `add` with the disallowed funct7 `0000001`
(word `0x02000033`), in a concrete state. -/
theorem claim_C2_witness :
    (exec 0x02000033 false sampleHart).1.halt = true ∧
    (exec 0x02000033 false sampleHart).1.halt_reason = "Illegal instruction" ∧
    decode 0 0x02000033 = render_illegal_insn := by
  have h := claim_C2_amended_alu_reg_illegal 0 0x02000033 false sampleHart
    (by decide) (by decide)
  exact ⟨h.1, h.2.1, h.2.2 (by decide)⟩

/-! ### Claim C8: jal-to-self spins forever -/

/-- A 256-byte memory whose word at address 0 is `0x0000006f`
(`jal x0, 0`). -/
def jalMem : memory := (memory.init 0x100).set32 0 0x0000006F

/-- A reset hart over `jalMem`. -/
def jalHart0 : Hart := Hart.reset (Hart.mk0 jalMem)

/-- On any quiet (non-halted, untraced) state at `pc = 0` whose fetched
word is `0x0000006f` (`jal x0, 0`), a tick only increments the
instruction counter: the return address write goes to x0 (dropped) and
the jump target is `pc + 0 = 0` again. -/
lemma tick_jal_self (s : Hart) (h1 : s.halt = false) (h2 : s.show_registers = false)
    (h3 : s.show_instructions = false) (h4 : s.pc = 0)
    (h5 : s.mem.get32 0 = 111) :
    tickState s = { s with insn_counter := s.insn_counter + 1 } := by
  unfold tickState tick
  simp only [h1, h2, h3, h4, Bool.false_eq_true, if_false, ite_false]
  rw [if_neg (by decide)]
  rw [h5]
  have hop : get_opcode 111 = opcode_jal := by decide
  unfold exec
  rw [hop]
  rw [if_neg (by decide), if_neg (by decide), if_pos rfl]
  unfold exec_jal
  simp only [show get_rd 111 = 0 from by decide, show get_imm_j 111 = 0 from by decide]
  simp [registerfile.set, show addw 0 0 = 0 from by decide]

/-- One tick from `jalHart0` with the counter at `k`. -/
lemma jal_tick_step (k : Nat) :
    tickState { jalHart0 with insn_counter := k } =
      { jalHart0 with insn_counter := k + 1 } := by
  have h5 : ({ jalHart0 with insn_counter := k }).mem.get32 0 = 111 := by
    show jalMem.get32 0 = 111
    decide
  rw [tick_jal_self _ rfl rfl rfl rfl h5]

lemma jal_ticksN (n : Nat) :
    ticksN n jalHart0 = { jalHart0 with insn_counter := n } := by
  induction n with
  | zero => rfl
  | succ n ih =>
    show tickState (ticksN n jalHart0) = _
    rw [ih, jal_tick_step]

/-- C8: with `0x0000006f` at address 0 and the hart reset, after any
`n ≥ 1` ticks the pc is 0, x0 is 0, the counter is `n` and the hart is
not halted. -/
theorem claim_C8_jal_self (n : Nat) (_hn : 1 ≤ n) :
    (ticksN n jalHart0).pc = 0 ∧
    (ticksN n jalHart0).regs.get 0 = 0 ∧
    (ticksN n jalHart0).insn_counter = n ∧
    (ticksN n jalHart0).halt = false := by
  rw [jal_ticksN]
  exact ⟨rfl, rfl, rfl, rfl⟩

/-- Witness for C8 at `n = 1000`. -/
theorem claim_C8_witness :
    (ticksN 1000 jalHart0).pc = 0 ∧
    (ticksN 1000 jalHart0).regs.get 0 = 0 ∧
    (ticksN 1000 jalHart0).insn_counter = 1000 ∧
    (ticksN 1000 jalHart0).halt = false :=
  claim_C8_jal_self 1000 (by norm_num)

/-! ### Claim C3: tracing never changes the state -/

/-- A hart with its two trace flags replaced (the `-i`/`-r`
configuration chosen by the driver). -/
def setFlags (s : Hart) (bi br : Bool) : Hart :=
  { s with show_instructions := bi, show_registers := br }

@[simp] lemma setFlags_regs (s : Hart) (bi br : Bool) : (setFlags s bi br).regs = s.regs := rfl

@[simp] lemma setFlags_mem (s : Hart) (bi br : Bool) : (setFlags s bi br).mem = s.mem := rfl

@[simp] lemma setFlags_halt (s : Hart) (bi br : Bool) : (setFlags s bi br).halt = s.halt := rfl

@[simp] lemma setFlags_halt_reason (s : Hart) (bi br : Bool) :
    (setFlags s bi br).halt_reason = s.halt_reason := rfl

@[simp] lemma setFlags_insn_counter (s : Hart) (bi br : Bool) :
    (setFlags s bi br).insn_counter = s.insn_counter := rfl

@[simp] lemma setFlags_pc (s : Hart) (bi br : Bool) : (setFlags s bi br).pc = s.pc := rfl

@[simp] lemma setFlags_mhartid (s : Hart) (bi br : Bool) :
    (setFlags s bi br).mhartid = s.mhartid := rfl

@[simp] lemma setFlags_csr (s : Hart) (bi br : Bool) : (setFlags s bi br).csr = s.csr := rfl

@[simp] lemma setFlags_show_instructions (s : Hart) (bi br : Bool) :
    (setFlags s bi br).show_instructions = bi := rfl

@[simp] lemma setFlags_show_registers (s : Hart) (bi br : Bool) :
    (setFlags s bi br).show_registers = br := rfl

/-- `exec_lui`'s state change ignores both the trace sink and the
trace flags. -/
lemma exec_lui_state (insn : Nat) (p q bi br : Bool) (s : Hart) :
    (exec_lui insn p (setFlags s bi br)).1 = setFlags (exec_lui insn q s).1 bi br := rfl

lemma exec_auipc_state (insn : Nat) (p q bi br : Bool) (s : Hart) :
    (exec_auipc insn p (setFlags s bi br)).1 = setFlags (exec_auipc insn q s).1 bi br := rfl

lemma exec_jal_state (insn : Nat) (p q bi br : Bool) (s : Hart) :
    (exec_jal insn p (setFlags s bi br)).1 = setFlags (exec_jal insn q s).1 bi br := rfl

lemma exec_jalr_state (insn : Nat) (p q bi br : Bool) (s : Hart) :
    (exec_jalr insn p (setFlags s bi br)).1 = setFlags (exec_jalr insn q s).1 bi br := rfl

lemma exec_ecall_state (insn : Nat) (p q bi br : Bool) (s : Hart) :
    (exec_ecall insn p (setFlags s bi br)).1 = setFlags (exec_ecall insn q s).1 bi br := rfl

lemma exec_ebreak_state (insn : Nat) (p q bi br : Bool) (s : Hart) :
    (exec_ebreak insn p (setFlags s bi br)).1 = setFlags (exec_ebreak insn q s).1 bi br := rfl

lemma exec_illegal_insn_state (insn : Nat) (p q bi br : Bool) (s : Hart) :
    (exec_illegal_insn insn p (setFlags s bi br)).1 =
      setFlags (exec_illegal_insn insn q s).1 bi br := rfl

lemma exec_alu_imm_state (insn : Nat) (p q bi br : Bool) (s : Hart) :
    (exec_alu_imm insn p (setFlags s bi br)).1 =
      setFlags (exec_alu_imm insn q s).1 bi br := by
  unfold exec_alu_imm
  simp only [setFlags_regs, setFlags_pc]
  obtain ⟨f3, hf3⟩ : ∃ k, get_funct3 insn = k := ⟨_, rfl⟩
  have h8 : f3 < 8 := hf3 ▸ lt_of_le_of_lt Nat.and_le_right (by norm_num)
  rw [hf3]
  interval_cases f3
  all_goals norm_num
  all_goals try rfl
  all_goals try (split_ifs <;> rfl)

lemma exec_alu_reg_state (insn : Nat) (p q bi br : Bool) (s : Hart) :
    (exec_alu_reg insn p (setFlags s bi br)).1 =
      setFlags (exec_alu_reg insn q s).1 bi br := by
  unfold exec_alu_reg
  simp only [setFlags_regs, setFlags_pc]
  obtain ⟨f3, hf3⟩ : ∃ k, get_funct3 insn = k := ⟨_, rfl⟩
  have h8 : f3 < 8 := hf3 ▸ lt_of_le_of_lt Nat.and_le_right (by norm_num)
  rw [hf3]
  interval_cases f3
  all_goals norm_num
  all_goals try (split_ifs <;> rfl)

lemma exec_load_state (insn : Nat) (p q bi br : Bool) (s : Hart) :
    (exec_load insn p (setFlags s bi br)).1 = setFlags (exec_load insn q s).1 bi br := by
  unfold exec_load
  simp only [setFlags_regs, setFlags_pc, setFlags_mem]
  obtain ⟨f3, hf3⟩ : ∃ k, get_funct3 insn = k := ⟨_, rfl⟩
  have h8 : f3 < 8 := hf3 ▸ lt_of_le_of_lt Nat.and_le_right (by norm_num)
  rw [hf3]
  interval_cases f3
  all_goals norm_num
  all_goals try rfl

lemma exec_store_state (insn : Nat) (p q bi br : Bool) (s : Hart) :
    (exec_store insn p (setFlags s bi br)).1 = setFlags (exec_store insn q s).1 bi br := by
  unfold exec_store
  simp only [setFlags_regs, setFlags_pc, setFlags_mem]
  obtain ⟨f3, hf3⟩ : ∃ k, get_funct3 insn = k := ⟨_, rfl⟩
  have h8 : f3 < 8 := hf3 ▸ lt_of_le_of_lt Nat.and_le_right (by norm_num)
  rw [hf3]
  interval_cases f3
  all_goals norm_num
  all_goals try rfl

lemma exec_branch_state (insn : Nat) (p q bi br : Bool) (s : Hart) :
    (exec_branch insn p (setFlags s bi br)).1 = setFlags (exec_branch insn q s).1 bi br := by
  unfold exec_branch
  simp only [setFlags_regs, setFlags_pc]
  obtain ⟨f3, hf3⟩ : ∃ k, get_funct3 insn = k := ⟨_, rfl⟩
  have h8 : f3 < 8 := hf3 ▸ lt_of_le_of_lt Nat.and_le_right (by norm_num)
  rw [hf3]
  interval_cases f3
  all_goals norm_num
  all_goals try rfl

lemma exec_csrrx_state (insn : Nat) (p q bi br : Bool) (s : Hart) (mnemonic : String) :
    (exec_csrrx insn p (setFlags s bi br) mnemonic).1 =
      setFlags (exec_csrrx insn q s mnemonic).1 bi br := by
  unfold exec_csrrx
  simp only [setFlags_regs, setFlags_pc, setFlags_csr]
  by_cases h1 : insn >>> 20 ≥ 4096
  · rw [if_pos h1, if_pos h1]
    rfl
  · rw [if_neg h1, if_neg h1]
    by_cases h2 : mnemonic ≠ "csrrw" ∧ mnemonic ≠ "csrrs" ∧ mnemonic ≠ "csrrc"
    · rw [if_pos h2, if_pos h2]
      rfl
    · rw [if_neg h2, if_neg h2]
      rfl

lemma exec_csrrxi_state (insn : Nat) (p q bi br : Bool) (s : Hart) (mnemonic : String) :
    (exec_csrrxi insn p (setFlags s bi br) mnemonic).1 =
      setFlags (exec_csrrxi insn q s mnemonic).1 bi br := by
  unfold exec_csrrxi
  simp only [setFlags_regs, setFlags_pc, setFlags_csr]
  by_cases h1 : insn >>> 20 ≥ 4096
  · rw [if_pos h1, if_pos h1]
    rfl
  · rw [if_neg h1, if_neg h1]
    by_cases h2 : mnemonic ≠ "csrrwi" ∧ mnemonic ≠ "csrrsi" ∧ mnemonic ≠ "csrrci"
    · rw [if_pos h2, if_pos h2]
      rfl
    · rw [if_neg h2, if_neg h2]
      rfl

/-- The state change of `rv32i_hart::exec` depends neither on the trace
sink (`pos`) nor on the two trace flags. -/
lemma exec_state_flags (insn : Nat) (p q bi br : Bool) (s : Hart) :
    (exec insn p (setFlags s bi br)).1 = setFlags (exec insn q s).1 bi br := by
  unfold exec
  dsimp only
  by_cases h1 : get_opcode insn = opcode_lui
  · rw [if_pos h1, if_pos h1]
    exact exec_lui_state insn p q bi br s
  rw [if_neg h1, if_neg h1]
  by_cases h2 : get_opcode insn = opcode_auipc
  · rw [if_pos h2, if_pos h2]
    exact exec_auipc_state insn p q bi br s
  rw [if_neg h2, if_neg h2]
  by_cases h3 : get_opcode insn = opcode_jal
  · rw [if_pos h3, if_pos h3]
    exact exec_jal_state insn p q bi br s
  rw [if_neg h3, if_neg h3]
  by_cases h4 : get_opcode insn = opcode_jalr
  · rw [if_pos h4, if_pos h4]
    exact exec_jalr_state insn p q bi br s
  rw [if_neg h4, if_neg h4]
  by_cases h5 : get_opcode insn = opcode_alu_imm
  · rw [if_pos h5, if_pos h5]
    exact exec_alu_imm_state insn p q bi br s
  rw [if_neg h5, if_neg h5]
  by_cases h6 : get_opcode insn = opcode_alu_reg
  · rw [if_pos h6, if_pos h6]
    exact exec_alu_reg_state insn p q bi br s
  rw [if_neg h6, if_neg h6]
  by_cases h7 : get_opcode insn = opcode_load
  · rw [if_pos h7, if_pos h7]
    exact exec_load_state insn p q bi br s
  rw [if_neg h7, if_neg h7]
  by_cases h8 : get_opcode insn = opcode_store
  · rw [if_pos h8, if_pos h8]
    exact exec_store_state insn p q bi br s
  rw [if_neg h8, if_neg h8]
  by_cases h9 : get_opcode insn = opcode_btype
  · rw [if_pos h9, if_pos h9]
    exact exec_branch_state insn p q bi br s
  rw [if_neg h9, if_neg h9]
  by_cases h10 : get_opcode insn = opcode_system
  · rw [if_pos h10, if_pos h10]
    by_cases k1 : get_funct3 insn = 0
    · rw [if_pos k1, if_pos k1]
      by_cases k2 : insn = 115
      · rw [if_pos k2, if_pos k2]
        exact exec_ecall_state insn p q bi br s
      rw [if_neg k2, if_neg k2]
      by_cases k3 : insn = 1048691
      · rw [if_pos k3, if_pos k3]
        exact exec_ebreak_state insn p q bi br s
      rw [if_neg k3, if_neg k3]
      exact exec_illegal_insn_state insn p q bi br s
    rw [if_neg k1, if_neg k1]
    by_cases k4 : get_funct3 insn = 1
    · rw [if_pos k4, if_pos k4]
      exact exec_csrrx_state insn p q bi br s "csrrw"
    rw [if_neg k4, if_neg k4]
    by_cases k5 : get_funct3 insn = 2
    · rw [if_pos k5, if_pos k5]
      exact exec_csrrx_state insn p q bi br s "csrrs"
    rw [if_neg k5, if_neg k5]
    by_cases k6 : get_funct3 insn = 3
    · rw [if_pos k6, if_pos k6]
      exact exec_csrrx_state insn p q bi br s "csrrc"
    rw [if_neg k6, if_neg k6]
    by_cases k7 : get_funct3 insn = 5
    · rw [if_pos k7, if_pos k7]
      exact exec_csrrxi_state insn p q bi br s "csrrwi"
    rw [if_neg k7, if_neg k7]
    by_cases k8 : get_funct3 insn = 6
    · rw [if_pos k8, if_pos k8]
      exact exec_csrrxi_state insn p q bi br s "csrrsi"
    rw [if_neg k8, if_neg k8]
    by_cases k9 : get_funct3 insn = 7
    · rw [if_pos k9, if_pos k9]
      exact exec_csrrxi_state insn p q bi br s "csrrci"
    rw [if_neg k9, if_neg k9]
    exact exec_illegal_insn_state insn p q bi br s
  rw [if_neg h10, if_neg h10]
  exact exec_illegal_insn_state insn p q bi br s

lemma tick_state_flags (hdr : String) (s : Hart) (bi br : Bool) :
    (tick hdr (setFlags s bi br)).1 = setFlags (tick hdr s).1 bi br := by
  unfold tick
  simp only [setFlags_halt, setFlags_pc, setFlags_mem, setFlags_insn_counter,
    setFlags_show_instructions, setFlags_show_registers]
  cases hh : s.halt
  case true =>
    simp
  case false =>
    simp only [Bool.false_eq_true, if_false]
    by_cases hpc : s.pc &&& 0x3 ≠ 0
    · rw [if_pos hpc, if_pos hpc]
      rfl
    · rw [if_neg hpc, if_neg hpc]
      cases bi <;> cases hsi : s.show_instructions <;>
        simp only [Bool.false_eq_true, if_true, if_false, ite_true, ite_false]
      · exact exec_state_flags (s.mem.get32 s.pc) false false false br ⟨s.regs, s.mem, false, s.halt_reason, false, s.show_registers, s.insn_counter + 1, s.pc, s.mhartid, s.csr⟩
      · exact exec_state_flags (s.mem.get32 s.pc) false true false br ⟨s.regs, s.mem, false, s.halt_reason, true, s.show_registers, s.insn_counter + 1, s.pc, s.mhartid, s.csr⟩
      · exact exec_state_flags (s.mem.get32 s.pc) true false true br ⟨s.regs, s.mem, false, s.halt_reason, false, s.show_registers, s.insn_counter + 1, s.pc, s.mhartid, s.csr⟩
      · exact exec_state_flags (s.mem.get32 s.pc) true true true br ⟨s.regs, s.mem, false, s.halt_reason, true, s.show_registers, s.insn_counter + 1, s.pc, s.mhartid, s.csr⟩

/-- C3: for every instruction word (hence every fetched word) and every
hart state, ticking with any setting of the two trace flags produces
the same registers, program counter, memory, CSRs, halt flag, halt
reason and instruction counter as with any other setting: tracing is a
pure side effect. -/
theorem claim_C3_trace_noninterference (s : Hart) (hdr : String) (b1 r1 b2 r2 : Bool) :
    (tick hdr (setFlags s b1 r1)).1.regs = (tick hdr (setFlags s b2 r2)).1.regs ∧
    (tick hdr (setFlags s b1 r1)).1.pc = (tick hdr (setFlags s b2 r2)).1.pc ∧
    (tick hdr (setFlags s b1 r1)).1.mem = (tick hdr (setFlags s b2 r2)).1.mem ∧
    (tick hdr (setFlags s b1 r1)).1.csr = (tick hdr (setFlags s b2 r2)).1.csr ∧
    (tick hdr (setFlags s b1 r1)).1.halt = (tick hdr (setFlags s b2 r2)).1.halt ∧
    (tick hdr (setFlags s b1 r1)).1.halt_reason =
      (tick hdr (setFlags s b2 r2)).1.halt_reason ∧
    (tick hdr (setFlags s b1 r1)).1.insn_counter =
      (tick hdr (setFlags s b2 r2)).1.insn_counter := by
  rw [tick_state_flags hdr s b1 r1, tick_state_flags hdr s b2 r2]
  exact ⟨rfl, rfl, rfl, rfl, rfl, rfl, rfl⟩

end RV32

